import Mathlib

set_option maxRecDepth 2000

/-!
# Verification of the serverless dashboard API (`src/backend/lambda/app.py`)

Shallow embedding of the Python Lambda handler in Lean 4.  Python `float`
arithmetic is modelled exactly over `ℚ`; Python `dict`s with fixed shapes
become structures; `dict.get` with a default becomes `Option.getD`; Python
exceptions from the store are modelled by `Option` results (`none` = the
store raised or is unreachable).  `hashlib.md5` is embedded in full below,
since `_generate_user_dashboard` derives its per-user variation from
`int(hashlib.md5(alias.encode()).hexdigest()[:8], 16)`.
-/

namespace Dashboard

/-! ## MD5 (RFC 1321), as used by `_generate_user_dashboard` -/

namespace MD5

/-- Reduce to an unsigned 32-bit value. -/
def u32 (n : Nat) : Nat := n % 4294967296

/-- 32-bit left rotation. -/
def rotl (x n : Nat) : Nat := u32 (Nat.lor (x <<< n) (x >>> (32 - n)))

/-- 32-bit bitwise complement. -/
def notc (x : Nat) : Nat := Nat.xor x 4294967295

def fF (b c d : Nat) : Nat := Nat.lor (Nat.land b c) (Nat.land (notc b) d)

def fG (b c d : Nat) : Nat := Nat.lor (Nat.land d b) (Nat.land (notc d) c)

def fH (b c d : Nat) : Nat := Nat.xor b (Nat.xor c d)

def fI (b c d : Nat) : Nat := Nat.xor c (Nat.lor b (notc d))

/-- The 64 sine-derived constants `K[i] = floor(2^32 * |sin(i+1)|)`. -/
def K : List Nat :=
  [3614090360, 3905402710, 606105819, 3250441966, 4118548399, 1200080426, 2821735955, 4249261313,
   1770035416, 2336552879, 4294925233, 2304563134, 1804603682, 4254626195, 2792965006, 1236535329,
   4129170786, 3225465664, 643717713, 3921069994, 3593408605, 38016083, 3634488961, 3889429448,
   568446438, 3275163606, 4107603335, 1163531501, 2850285829, 4243563512, 1735328473, 2368359562,
   4294588738, 2272392833, 1839030562, 4259657740, 2763975236, 1272893353, 4139469664, 3200236656,
   681279174, 3936430074, 3572445317, 76029189, 3654602809, 3873151461, 530742520, 3299628645,
   4096336452, 1126891415, 2878612391, 4237533241, 1700485571, 2399980690, 4293915773, 2240044497,
   1873313359, 4264355552, 2734768916, 1309151649, 4149444226, 3174756917, 718787259, 3951481745]

/-- The per-round left-rotation amounts. -/
def s : List Nat :=
  [7, 12, 17, 22, 7, 12, 17, 22, 7, 12, 17, 22, 7, 12, 17, 22,
   5, 9, 14, 20, 5, 9, 14, 20, 5, 9, 14, 20, 5, 9, 14, 20,
   4, 11, 16, 23, 4, 11, 16, 23, 4, 11, 16, 23, 4, 11, 16, 23,
   6, 10, 15, 21, 6, 10, 15, 21, 6, 10, 15, 21, 6, 10, 15, 21]

/-- MD5 internal state: four 32-bit words. -/
structure St where
  a : Nat
  b : Nat
  c : Nat
  d : Nat
deriving DecidableEq

/-- One of the 64 rounds applied to a 16-word message block `M`. -/
def step (M : List Nat) (st : St) (i : Nat) : St :=
  let fg : Nat × Nat :=
    if i < 16 then (fF st.b st.c st.d, i)
    else if i < 32 then (fG st.b st.c st.d, (5 * i + 1) % 16)
    else if i < 48 then (fH st.b st.c st.d, (3 * i + 5) % 16)
    else (fI st.b st.c st.d, (7 * i) % 16)
  let sum := u32 (st.a + fg.1 + K.getD i 0 + M.getD fg.2 0)
  ⟨st.d, u32 (st.b + rotl sum (s.getD i 0)), st.b, st.c⟩

/-- Process one 512-bit block (given as 16 little-endian 32-bit words). -/
def processBlock (st0 : St) (M : List Nat) : St :=
  let r := (List.range 64).foldl (step M) st0
  ⟨u32 (st0.a + r.a), u32 (st0.b + r.b), u32 (st0.c + r.c), u32 (st0.d + r.d)⟩

/-- MD5 initial state. -/
def init : St := ⟨0x67452301, 0xefcdab89, 0x98badcfe, 0x10325476⟩

/-- MD5 padding: 0x80, zeros to 56 mod 64, then the 64-bit little-endian bit length. -/
def pad (msg : List Nat) : List Nat :=
  let len := msg.length
  let zeros := (119 - len % 64) % 64
  msg ++ 128 :: List.replicate zeros 0 ++
    (List.range 8).map (fun j => ((len * 8) >>> (8 * j)) % 256)

/-- Split a byte list into 64-byte blocks (structural recursion on a fuel
bound; `fuel = l.length` always suffices since every step consumes at least
one byte). -/
def chunksFuel : Nat → List Nat → List (List Nat)
  | 0, _ => []
  | _, [] => []
  | fuel + 1, l => l.take 64 :: chunksFuel fuel (l.drop 64)

/-- Split a byte list into 64-byte blocks. -/
def chunks (l : List Nat) : List (List Nat) :=
  chunksFuel l.length l

/-- Decode a 64-byte block into 16 little-endian 32-bit words. -/
def toWords (block : List Nat) : List Nat :=
  (List.range 16).map (fun j =>
    block.getD (4 * j) 0 + 256 * block.getD (4 * j + 1) 0 +
      65536 * block.getD (4 * j + 2) 0 + 16777216 * block.getD (4 * j + 3) 0)

/-- MD5 of a byte string, as the final four state words. -/
def md5words (msg : List Nat) : St :=
  (chunks (pad msg)).foldl (fun st b => processBlock st (toWords b)) init

/-- The value of the first 8 hex characters of the digest, read as one
big-endian number: the first 4 digest bytes are the little-endian bytes of
state word `a`. -/
def first8hexVal (st : St) : Nat :=
  (st.a % 256) * 16777216 + ((st.a >>> 8) % 256) * 65536 +
    ((st.a >>> 16) % 256) * 256 + (st.a >>> 24) % 256

/-- UTF-8 encoding of one code point (Python `str.encode()`). -/
def utf8Char (c : Nat) : List Nat :=
  if c < 128 then [c]
  else if c < 2048 then [192 + c / 64, 128 + c % 64]
  else if c < 65536 then [224 + c / 4096, 128 + (c / 64) % 64, 128 + c % 64]
  else [240 + c / 262144, 128 + (c / 4096) % 64, 128 + (c / 64) % 64, 128 + c % 64]

/-- UTF-8 bytes of a string (Python `alias.encode()`). -/
def encode (str : String) : List Nat :=
  (str.toList.map (fun ch => utf8Char ch.toNat)).flatten

end MD5

/-- `int(hashlib.md5(user_alias.encode()).hexdigest()[:8], 16)`
(line 219 of `app.py`). -/
def userHash (user_alias : String) : Nat :=
  MD5.first8hexVal (MD5.md5words (MD5.encode user_alias))

/-! ## Python string and numeric primitives

Python `float` arithmetic is modelled exactly over `ℚ`; `str.split` /
`str.startswith` are embedded on character lists so that they evaluate in
the kernel. -/

/-- Python `s.startswith(pre)` on character lists. -/
def prefixChars : List Char → List Char → Bool
  | _, [] => true
  | [], _ :: _ => false
  | c :: cs, p :: ps => c == p && prefixChars cs ps

/-- Python `s.startswith(pre)`. -/
def startswith (s pre : String) : Bool :=
  prefixChars s.toList pre.toList

/-- Helper for `pySplit`: split on a separator, accumulating the current
segment in reverse. -/
def splitCharsAux (sep : Char) : List Char → List Char → List (List Char)
  | [], acc => [acc.reverse]
  | c :: cs, acc =>
    if c == sep then acc.reverse :: splitCharsAux sep cs []
    else splitCharsAux sep cs (c :: acc)

/-- Python `s.split(sep)` (single-character separator); always returns a
nonempty list. -/
def pySplit (s : String) (sep : Char) : List String :=
  (splitCharsAux sep s.toList []).map String.mk

/-- Python `lst[-1]` on a nonempty list (with an unused default). -/
def lastD : List String → String → String
  | [], d => d
  | [x], _ => x
  | _ :: x :: xs, d => lastD (x :: xs) d

/-- Python `int()` applied to a `float` (modelled exactly as `ℚ`):
truncation toward zero. -/
def pyInt (q : ℚ) : Int :=
  if 0 ≤ q then q.floor else q.ceil

/-- Python `round` to an integer: round half to even. -/
def pyRoundInt (q : ℚ) : Int :=
  let f := q.floor
  let r := q - f
  if r < 1/2 then f
  else if 1/2 < r then f + 1
  else if f % 2 = 0 then f else f + 1

/-- Python `round(x, 1)`. -/
def round1 (q : ℚ) : ℚ :=
  (pyRoundInt (q * 10) : ℚ) / 10

/-! ## Data model -/

/-- A sample user record (`_generate_sample_users`, lines 162-189).  The
Python dict key `alias` is a reserved word in Lean, hence `alias'`. -/
structure User where
  alias' : String
  name : String
  job_title : String
  staff_level : String
  supervisor : String
  region : String
deriving DecidableEq

/-- The projection of a user returned by `_get_user_info` (lines 243-249);
note it drops `region`. -/
structure UserInfo where
  user_alias : String
  user_name : String
  job_title : String
  staff_level : String
  supervisor : String
deriving DecidableEq

/-- A metric in canonical response shape (dict built at lines 227-231 and
by `_format_metric`). -/
structure Metric where
  metric_name : String
  display_name : String
  annual_target : ℚ
  metric_type : String
  actual_value : ℚ
  attainment_percent : ℚ
deriving DecidableEq

/-- A metric template from `base_metrics` (lines 196-215). -/
structure MetricDef where
  metric_name : String
  display_name : String
  annual_target : ℚ
  metric_type : String
deriving DecidableEq

/-- A raw DynamoDB metric item as consumed by `_format_metric`
(`item.get(key, default)`; an absent key is `none`). -/
structure StoredItem where
  metric_name : Option String := none
  display_name : Option String := none
  actual_value : Option ℚ := none
  annual_target : Option ℚ := none
  attainment_percent : Option ℚ := none
  metric_type : Option String := none
deriving DecidableEq

/-- A loosely-typed team-member record.  `_calculate_team_summary` reads
only `overall_attainment`, via `.get('overall_attainment', 0)`; records
from the store may lack any field. -/
structure TeamRec where
  user_alias : Option String := none
  name : Option String := none
  job_title : Option String := none
  overall_attainment : Option ℚ := none
  metrics_count : Option Nat := none
  on_track_metrics : Option Nat := none
  at_risk_metrics : Option Nat := none
deriving DecidableEq

/-- Team summary (`_calculate_team_summary`, lines 268-286). -/
structure TeamSummary where
  total_members : Nat
  avg_attainment : ℚ
  members_on_track : Nat
  members_at_risk : Nat
deriving DecidableEq

/-- `{**user_info, 'metrics': metrics}` (lines 114-117 / 233-236). -/
structure DashboardData where
  user_info : UserInfo
  metrics : List Metric
deriving DecidableEq

/-- The Python value handed to `json.dumps` as a response body. -/
inductive Body
  | empty
  | error (msg : String)
  | users (items : List User)
  | dashboard (data : DashboardData)
  | team (manager_alias : String) (team_summary : TeamSummary) (team_members : List TeamRec)
deriving DecidableEq

/-- An API-Gateway style response `{statusCode, headers, body}`. -/
structure Response where
  statusCode : Nat
  headers : List (String × String)
  body : Body
deriving DecidableEq

/-! ## The application (`class DashboardAPI`) -/

/-- The CORS header dict built at lines 44-49. -/
def corsHeaders : List (String × String) :=
  [("Content-Type", "application/json"),
   ("Access-Control-Allow-Origin", "*"),
   ("Access-Control-Allow-Methods", "GET, POST, OPTIONS"),
   ("Access-Control-Allow-Headers", "Content-Type, Authorization")]

/-- `_generate_sample_users` (lines 162-189). -/
def _generate_sample_users : List User :=
  [{ alias' := "jsmith", name := "John Smith",
     job_title := "Senior Solutions Architect", staff_level := "L6",
     supervisor := "manager1", region := "US East" },
   { alias' := "mjohnson", name := "Mary Johnson",
     job_title := "Principal Solutions Architect", staff_level := "L7",
     supervisor := "manager1", region := "US West" },
   { alias' := "rbrown", name := "Robert Brown",
     job_title := "Solutions Architect", staff_level := "L5",
     supervisor := "manager2", region := "US Central" }]

/-- `_get_user_info` (lines 238-249): the first sample user whose alias
matches, defaulting to `users[0]` (the fallback default is unreachable
since the sample list is a nonempty literal). -/
def _get_user_info (user_alias : String) : UserInfo :=
  let users := _generate_sample_users
  let user := (users.find? (fun u => u.alias' == user_alias)).getD
    (users.headD { alias' := "", name := "", job_title := "",
                   staff_level := "", supervisor := "", region := "" })
  { user_alias := user.alias', user_name := user.name,
    job_title := user.job_title, staff_level := user.staff_level,
    supervisor := user.supervisor }

/-- `base_metrics` (lines 196-215), in dict insertion order. -/
def base_metrics : List MetricDef :=
  [⟨"revenue_target", "Revenue Target", 1000000, "currency"⟩,
   ⟨"customer_engagements", "Customer Engagements", 50, "count"⟩,
   ⟨"win_rate", "Win Rate", 70, "percentage"⟩]

/-- `variation = (user_hash % 30) / 100` (line 220). -/
def dashVariation (user_hash : Nat) : ℚ :=
  ((user_hash % 30 : Nat) : ℚ) / 100

/-- The metric list built by the loop at lines 222-231, as a function of
`user_hash`:
`actual = int(target * (0.75 + variation * 0.5))`,
`attainment_percent = (actual / target) * 100`. -/
def dashboardMetrics (user_hash : Nat) : List Metric :=
  base_metrics.map (fun md =>
    let target := md.annual_target
    let actual := pyInt (target * (0.75 + dashVariation user_hash * 0.5))
    { metric_name := md.metric_name, display_name := md.display_name,
      annual_target := target, metric_type := md.metric_type,
      actual_value := (actual : ℚ),
      attainment_percent := ((actual : ℚ) / target) * 100 })

/-- `_generate_user_dashboard` (lines 191-236). -/
def _generate_user_dashboard (user_alias : String) : DashboardData :=
  ⟨_get_user_info user_alias, dashboardMetrics (userHash user_alias)⟩

/-- `_generate_sample_team` (lines 251-266).  `pyHash` models Python's
builtin (per-process seeded) string `hash`; Python `% 20` on an `int` is
`Int.emod`.  The `manager_alias` argument is accepted but never used. -/
def _generate_sample_team (pyHash : String → Int) (manager_alias : String) : List TeamRec :=
  (_generate_sample_users.take 2).map (fun user =>
    { user_alias := some user.alias', name := some user.name,
      job_title := some user.job_title,
      overall_attainment := some (85 + ((pyHash user.alias' % 20 : Int) : ℚ)),
      metrics_count := some 3, on_track_metrics := some 2,
      at_risk_metrics := some 1 })

/-- `_calculate_team_summary` (lines 268-286). -/
def _calculate_team_summary (team_members : List TeamRec) : TeamSummary :=
  if team_members.isEmpty then
    { total_members := 0, avg_attainment := 0,
      members_on_track := 0, members_at_risk := 0 }
  else
    let avg_attainment :=
      (team_members.map (fun m => m.overall_attainment.getD 0)).sum /
        (team_members.length : ℚ)
    let on_track := team_members.countP (fun m => 80 ≤ m.overall_attainment.getD 0)
    { total_members := team_members.length,
      avg_attainment := round1 avg_attainment,
      members_on_track := on_track,
      members_at_risk := team_members.length - on_track }

/-- `_format_metric` (lines 288-297): every field is copied from the stored
item with a default; in particular `attainment_percent` is passed through
verbatim, not recomputed. -/
def _format_metric (item : StoredItem) : Metric :=
  { metric_name := item.metric_name.getD "",
    display_name := item.display_name.getD "",
    actual_value := item.actual_value.getD 0,
    annual_target := item.annual_target.getD 0,
    attainment_percent := item.attainment_percent.getD 0,
    metric_type := item.metric_type.getD "count" }

/-- `_success_response` (lines 299-305). -/
def _success_response (data : Body) (headers : List (String × String)) : Response :=
  ⟨200, headers, data⟩

/-- `_error_response` (lines 307-313). -/
def _error_response (status_code : Nat) (message : String)
    (headers : List (String × String)) : Response :=
  ⟨status_code, headers, Body.error message⟩

/-- The observable behavior of the DynamoDB store during one request:
`none` models a raised exception (store unreachable), `some items` a
successful read. -/
structure Store where
  scanUsers : Option (List User)
  queryMetrics : String → Option (List StoredItem)
  scanTeam : String → Option (List TeamRec)

/-- A store whose every access raises. -/
def unreachableStore : Store :=
  ⟨none, fun _ => none, fun _ => none⟩

/-- A reachable store with no items. -/
def emptyStore : Store :=
  ⟨some [], fun _ => some [], fun _ => some []⟩

/-- `_get_users` (lines 75-96): a store fault leaves `users = []`
(lines 78-86), and an empty list falls back to the sample users
(lines 89-90). -/
def _get_users (store : Store) (headers : List (String × String)) : Response :=
  let users := store.scanUsers.getD []
  let users := if users.isEmpty then _generate_sample_users else users
  _success_response (Body.users users) headers

/-- `_get_user_dashboard` (lines 98-128).  The store-success branch
(lines 110-118) is not syntactically valid Python (see the claim about
`indentOk` below); it is embedded here as the enclosing `try` evidently
intends: a nonempty query result is formatted and returned with the user
info, and a store fault or empty result falls back to
`_generate_user_dashboard` (line 123). -/
def _get_user_dashboard (store : Store) (user_alias : String)
    (headers : List (String × String)) : Response :=
  match store.queryMetrics user_alias with
  | some items =>
    if items.isEmpty then
      _success_response (Body.dashboard (_generate_user_dashboard user_alias)) headers
    else
      _success_response
        (Body.dashboard ⟨_get_user_info user_alias, items.map _format_metric⟩) headers
  | none =>
    _success_response (Body.dashboard (_generate_user_dashboard user_alias)) headers

/-- `_get_team_dashboard` (lines 130-160). -/
def _get_team_dashboard (pyHash : String → Int) (store : Store)
    (manager_alias : String) (headers : List (String × String)) : Response :=
  let team_members := (store.scanTeam manager_alias).getD []
  let team_members :=
    if team_members.isEmpty then _generate_sample_team pyHash manager_alias
    else team_members
  let team_summary := _calculate_team_summary team_members
  _success_response (Body.team manager_alias team_summary team_members) headers

/-- An inbound Lambda event.  `dict` is a Python dict with optional
`httpMethod` / `path` keys (defaults `"GET"` / `""` via `.get`);
`nonDict` is any event value without a `.get` method (e.g. `None`), on
which line 40 raises before `headers` is assigned. -/
inductive LEvent
  | dict (httpMethod : Option String) (path : Option String)
  | nonDict

/-- `lambda_handler` (lines 36-73). -/
def lambda_handler (pyHash : String → Int) (store : Store) (event : LEvent) : Response :=
  match event with
  | LEvent.nonDict =>
    -- `event.get` raises before line 44, so at line 73
    -- `'headers' in locals()` is false and the 500 carries an empty dict.
    _error_response 500 "Internal server error" []
  | LEvent.dict m p =>
    let http_method := m.getD "GET"
    let path := p.getD ""
    let headers := corsHeaders
    if http_method == "OPTIONS" then
      { statusCode := 200, headers := headers, body := Body.empty }
    else if path == "/api/users" && http_method == "GET" then
      _get_users store headers
    else if startswith path "/api/dashboard/" && http_method == "GET" then
      _get_user_dashboard store (lastD (pySplit path '/') "") headers
    else if startswith path "/api/team-dashboard/" && http_method == "GET" then
      _get_team_dashboard pyHash store (lastD (pySplit path '/') "") headers
    else
      _error_response 404 "Endpoint not found" headers

/-! ## Python block structure of `_get_user_dashboard` (lines 98-128)

The statement block at lines 110-118 dedents `dashboard_data = {...}`
(line 114) to column 12 inside the inner `try` and then places `return`
(line 118) back at column 20.  `indentOk` below checks a necessary
fragment of CPython's INDENT/DEDENT rules. -/

/-- One logical line of Python source: its indentation column and whether
it opens a block (ends with `:`). -/
structure PyLine where
  indent : Nat
  opens : Bool

/-- Pop the indentation stack to level `i`: legal only if `i` is already a
level on the stack (CPython: a dedent must return to an enclosing
indentation level). -/
def popTo (i : Nat) : List Nat → Option (List Nat)
  | [] => none
  | t :: s =>
    if i = t then some (t :: s)
    else if t < i then none
    else popTo i s

/-- A necessary condition for a sequence of logical lines to be valid
Python block structure: after a block-opening line the next line must be
more indented (a new level is pushed); otherwise the line must sit at a
level already on the stack, popping any deeper levels; an indent increase
after a non-opening line is an `IndentationError`; a file may not end
right after an opener. -/
def indentOk : List Nat → Bool → List PyLine → Bool
  | _, needIndent, [] => !needIndent
  | stack, needIndent, l :: rest =>
    if needIndent then
      match stack with
      | [] => indentOk [l.indent] l.opens rest
      | t :: s =>
        if t < l.indent then indentOk (l.indent :: t :: s) l.opens rest
        else false
    else
      match popTo l.indent stack with
      | some stack2 => indentOk stack2 l.opens rest
      | none => false

/-- The logical lines of `_get_user_dashboard` (source lines 98-128),
transcribed with their exact indentation columns; multi-line statements
inside brackets (lines 104-107 and 114-117) are single logical lines. -/
def getUserDashboardLines : List PyLine :=
  [⟨4, true⟩,    -- 98  def _get_user_dashboard(self, user_alias, headers):
   ⟨8, false⟩,   -- 99  docstring
   ⟨8, true⟩,    -- 100 try:
   ⟨12, true⟩,   -- 102 try:
   ⟨16, false⟩,  -- 103 metrics_table = ...
   ⟨16, false⟩,  -- 104-107 response = metrics_table.query(...)
   ⟨16, false⟩,  -- 108 metrics_items = response.get(...)
   ⟨16, true⟩,   -- 110 if metrics_items:
   ⟨20, false⟩,  -- 111 metrics = [...]
   ⟨20, false⟩,  -- 112 user_info = ...
   ⟨12, false⟩,  -- 114-117 dashboard_data = {...}
   ⟨20, false⟩,  -- 118 return self._success_response(...)
   ⟨12, true⟩,   -- 119 except Exception as db_error:
   ⟨16, false⟩,  -- 120 logger.info(...)
   ⟨12, false⟩,  -- 123 dashboard_data = self._generate_user_dashboard(...)
   ⟨12, false⟩,  -- 124 return self._success_response(...)
   ⟨8, true⟩,    -- 126 except Exception as e:
   ⟨12, false⟩,  -- 127 logger.error(...)
   ⟨12, false⟩]  -- 128 return self._error_response(...)

/-- The logical lines of `_get_team_dashboard` (source lines 130-160),
transcribed the same way, as a sanity control: this block is
well-indented. -/
def getTeamDashboardLines : List PyLine :=
  [⟨4, true⟩,    -- 130 def _get_team_dashboard(self, manager_alias, headers):
   ⟨8, false⟩,   -- 131 docstring
   ⟨8, true⟩,    -- 132 try:
   ⟨12, true⟩,   -- 134 try:
   ⟨16, false⟩,  -- 135 users_table = ...
   ⟨16, false⟩,  -- 136-139 response = users_table.scan(...)
   ⟨16, false⟩,  -- 140 team_members = response.get(...)
   ⟨12, true⟩,   -- 141 except Exception:
   ⟨16, false⟩,  -- 142 team_members = []
   ⟨12, true⟩,   -- 144 if not team_members:
   ⟨16, false⟩,  -- 145 team_members = ...
   ⟨12, false⟩,  -- 148 team_summary = ...
   ⟨12, false⟩,  -- 150-154 team_data = {...}
   ⟨12, false⟩,  -- 156 return self._success_response(...)
   ⟨8, true⟩,    -- 158 except Exception as e:
   ⟨12, false⟩,  -- 159 logger.error(...)
   ⟨12, false⟩]  -- 160 return self._error_response(...)

/-- The single padded 64-byte block of `"jsmith"`. -/
def blockJsmith : List Nat :=
  [106, 115, 109, 105, 116, 104, 128, 0, 0, 0, 0, 0, 0, 0, 0, 0, 0, 0, 0, 0, 0, 0, 0, 0, 0, 0, 0, 0, 0, 0, 0, 0, 0, 0, 0, 0, 0, 0, 0, 0, 0, 0, 0, 0, 0, 0, 0, 0, 0, 0, 0, 0, 0, 0, 0, 0, 48, 0, 0, 0, 0, 0, 0, 0]

/-- The 16 little-endian message words of `"jsmith"`. -/
def wordsJsmith : List Nat :=
  [1768780650, 8415348, 0, 0, 0, 0, 0, 0, 0, 0, 0, 0, 0, 0, 48, 0]

/-- The single padded 64-byte block of `"bob"`. -/
def blockBob : List Nat :=
  [98, 111, 98, 128, 0, 0, 0, 0, 0, 0, 0, 0, 0, 0, 0, 0, 0, 0, 0, 0, 0, 0, 0, 0, 0, 0, 0, 0, 0, 0, 0, 0, 0, 0, 0, 0, 0, 0, 0, 0, 0, 0, 0, 0, 0, 0, 0, 0, 0, 0, 0, 0, 0, 0, 0, 0, 24, 0, 0, 0, 0, 0, 0, 0]

/-- The 16 little-endian message words of `"bob"`. -/
def wordsBob : List Nat :=
  [2153934690, 0, 0, 0, 0, 0, 0, 0, 0, 0, 0, 0, 0, 0, 24, 0]

/-! ## Theorems -/

/-- `int(hashlib.md5(b"jsmith").hexdigest()[:8], 16)` evaluated. -/
theorem userHash_jsmith : userHash "jsmith" = 969834026 := by
  have hpad : MD5.chunks (MD5.pad (MD5.encode "jsmith")) = [blockJsmith] := by decide
  have hW : MD5.toWords blockJsmith = wordsJsmith := by decide
  have r0 : MD5.step wordsJsmith MD5.init 0 = ⟨271733878, 1540987945, 4023233417, 2562383102⟩ := by decide
  have r1 : MD5.step wordsJsmith ⟨271733878, 1540987945, 4023233417, 2562383102⟩ 1 = ⟨2562383102, 3215693951, 1540987945, 4023233417⟩ := by decide
  have r2 : MD5.step wordsJsmith ⟨2562383102, 3215693951, 1540987945, 4023233417⟩ 2 = ⟨4023233417, 3534735825, 3215693951, 1540987945⟩ := by decide
  have r3 : MD5.step wordsJsmith ⟨4023233417, 3534735825, 3215693951, 1540987945⟩ 3 = ⟨1540987945, 2395155350, 3534735825, 3215693951⟩ := by decide
  have r4 : MD5.step wordsJsmith ⟨1540987945, 2395155350, 3534735825, 3215693951⟩ 4 = ⟨3215693951, 258348056, 2395155350, 3534735825⟩ := by decide
  have r5 : MD5.step wordsJsmith ⟨3215693951, 258348056, 2395155350, 3534735825⟩ 5 = ⟨3534735825, 32359031, 258348056, 2395155350⟩ := by decide
  have r6 : MD5.step wordsJsmith ⟨3534735825, 32359031, 258348056, 2395155350⟩ 6 = ⟨2395155350, 1960171267, 32359031, 258348056⟩ := by decide
  have r7 : MD5.step wordsJsmith ⟨2395155350, 1960171267, 32359031, 258348056⟩ 7 = ⟨258348056, 561763171, 1960171267, 32359031⟩ := by decide
  have r8 : MD5.step wordsJsmith ⟨258348056, 561763171, 1960171267, 32359031⟩ 8 = ⟨32359031, 4290500399, 561763171, 1960171267⟩ := by decide
  have r9 : MD5.step wordsJsmith ⟨32359031, 4290500399, 561763171, 1960171267⟩ 9 = ⟨1960171267, 680555034, 4290500399, 561763171⟩ := by decide
  have r10 : MD5.step wordsJsmith ⟨1960171267, 680555034, 4290500399, 561763171⟩ 10 = ⟨561763171, 886026172, 680555034, 4290500399⟩ := by decide
  have r11 : MD5.step wordsJsmith ⟨561763171, 886026172, 680555034, 4290500399⟩ 11 = ⟨4290500399, 2213892611, 886026172, 680555034⟩ := by decide
  have r12 : MD5.step wordsJsmith ⟨4290500399, 2213892611, 886026172, 680555034⟩ 12 = ⟨680555034, 2356840141, 2213892611, 886026172⟩ := by decide
  have r13 : MD5.step wordsJsmith ⟨680555034, 2356840141, 2213892611, 886026172⟩ 13 = ⟨886026172, 1835562046, 2356840141, 2213892611⟩ := by decide
  have r14 : MD5.step wordsJsmith ⟨886026172, 1835562046, 2356840141, 2213892611⟩ 14 = ⟨2213892611, 1618430153, 1835562046, 2356840141⟩ := by decide
  have r15 : MD5.step wordsJsmith ⟨2213892611, 1618430153, 1835562046, 2356840141⟩ 15 = ⟨2356840141, 1822805329, 1618430153, 1835562046⟩ := by decide
  have r16 : MD5.step wordsJsmith ⟨2356840141, 1822805329, 1618430153, 1835562046⟩ 16 = ⟨1835562046, 1454504942, 1822805329, 1618430153⟩ := by decide
  have r17 : MD5.step wordsJsmith ⟨1835562046, 1454504942, 1822805329, 1618430153⟩ 17 = ⟨1618430153, 211593442, 1454504942, 1822805329⟩ := by decide
  have r18 : MD5.step wordsJsmith ⟨1618430153, 211593442, 1454504942, 1822805329⟩ 18 = ⟨1822805329, 2753483324, 211593442, 1454504942⟩ := by decide
  have r19 : MD5.step wordsJsmith ⟨1822805329, 2753483324, 211593442, 1454504942⟩ 19 = ⟨1454504942, 1295749289, 2753483324, 211593442⟩ := by decide
  have r20 : MD5.step wordsJsmith ⟨1454504942, 1295749289, 2753483324, 211593442⟩ 20 = ⟨211593442, 1823961508, 1295749289, 2753483324⟩ := by decide
  have r21 : MD5.step wordsJsmith ⟨211593442, 1823961508, 1295749289, 2753483324⟩ 21 = ⟨2753483324, 2631083676, 1823961508, 1295749289⟩ := by decide
  have r22 : MD5.step wordsJsmith ⟨2753483324, 2631083676, 1823961508, 1295749289⟩ 22 = ⟨1295749289, 2741342450, 2631083676, 1823961508⟩ := by decide
  have r23 : MD5.step wordsJsmith ⟨1295749289, 2741342450, 2631083676, 1823961508⟩ 23 = ⟨1823961508, 3590580284, 2741342450, 2631083676⟩ := by decide
  have r24 : MD5.step wordsJsmith ⟨1823961508, 3590580284, 2741342450, 2631083676⟩ 24 = ⟨2631083676, 2384587076, 3590580284, 2741342450⟩ := by decide
  have r25 : MD5.step wordsJsmith ⟨2631083676, 2384587076, 3590580284, 2741342450⟩ 25 = ⟨2741342450, 3931096496, 2384587076, 3590580284⟩ := by decide
  have r26 : MD5.step wordsJsmith ⟨2741342450, 3931096496, 2384587076, 3590580284⟩ 26 = ⟨3590580284, 2185895495, 3931096496, 2384587076⟩ := by decide
  have r27 : MD5.step wordsJsmith ⟨3590580284, 2185895495, 3931096496, 2384587076⟩ 27 = ⟨2384587076, 606730503, 2185895495, 3931096496⟩ := by decide
  have r28 : MD5.step wordsJsmith ⟨2384587076, 606730503, 2185895495, 3931096496⟩ 28 = ⟨3931096496, 639609618, 606730503, 2185895495⟩ := by decide
  have r29 : MD5.step wordsJsmith ⟨3931096496, 639609618, 606730503, 2185895495⟩ 29 = ⟨2185895495, 4241030956, 639609618, 606730503⟩ := by decide
  have r30 : MD5.step wordsJsmith ⟨2185895495, 4241030956, 639609618, 606730503⟩ 30 = ⟨606730503, 64357154, 4241030956, 639609618⟩ := by decide
  have r31 : MD5.step wordsJsmith ⟨606730503, 64357154, 4241030956, 639609618⟩ 31 = ⟨639609618, 3486434763, 64357154, 4241030956⟩ := by decide
  have r32 : MD5.step wordsJsmith ⟨639609618, 3486434763, 64357154, 4241030956⟩ 32 = ⟨4241030956, 1047570272, 3486434763, 64357154⟩ := by decide
  have r33 : MD5.step wordsJsmith ⟨4241030956, 1047570272, 3486434763, 64357154⟩ 33 = ⟨64357154, 1495948053, 1047570272, 3486434763⟩ := by decide
  have r34 : MD5.step wordsJsmith ⟨64357154, 1495948053, 1047570272, 3486434763⟩ 34 = ⟨3486434763, 4146885916, 1495948053, 1047570272⟩ := by decide
  have r35 : MD5.step wordsJsmith ⟨3486434763, 4146885916, 1495948053, 1047570272⟩ 35 = ⟨1047570272, 2942011999, 4146885916, 1495948053⟩ := by decide
  have r36 : MD5.step wordsJsmith ⟨1047570272, 2942011999, 4146885916, 1495948053⟩ 36 = ⟨1495948053, 3502413, 2942011999, 4146885916⟩ := by decide
  have r37 : MD5.step wordsJsmith ⟨1495948053, 3502413, 2942011999, 4146885916⟩ 37 = ⟨4146885916, 1576786231, 3502413, 2942011999⟩ := by decide
  have r38 : MD5.step wordsJsmith ⟨4146885916, 1576786231, 3502413, 2942011999⟩ 38 = ⟨2942011999, 1084078515, 1576786231, 3502413⟩ := by decide
  have r39 : MD5.step wordsJsmith ⟨2942011999, 1084078515, 1576786231, 3502413⟩ 39 = ⟨3502413, 2363715807, 1084078515, 1576786231⟩ := by decide
  have r40 : MD5.step wordsJsmith ⟨3502413, 2363715807, 1084078515, 1576786231⟩ 40 = ⟨1576786231, 843282378, 2363715807, 1084078515⟩ := by decide
  have r41 : MD5.step wordsJsmith ⟨1576786231, 843282378, 2363715807, 1084078515⟩ 41 = ⟨1084078515, 1943897420, 843282378, 2363715807⟩ := by decide
  have r42 : MD5.step wordsJsmith ⟨1084078515, 1943897420, 843282378, 2363715807⟩ 42 = ⟨2363715807, 3765397590, 1943897420, 843282378⟩ := by decide
  have r43 : MD5.step wordsJsmith ⟨2363715807, 3765397590, 1943897420, 843282378⟩ 43 = ⟨843282378, 982062826, 3765397590, 1943897420⟩ := by decide
  have r44 : MD5.step wordsJsmith ⟨843282378, 982062826, 3765397590, 1943897420⟩ 44 = ⟨1943897420, 2412598821, 982062826, 3765397590⟩ := by decide
  have r45 : MD5.step wordsJsmith ⟨1943897420, 2412598821, 982062826, 3765397590⟩ 45 = ⟨3765397590, 2987109284, 2412598821, 982062826⟩ := by decide
  have r46 : MD5.step wordsJsmith ⟨3765397590, 2987109284, 2412598821, 982062826⟩ 46 = ⟨982062826, 2193928965, 2987109284, 2412598821⟩ := by decide
  have r47 : MD5.step wordsJsmith ⟨982062826, 2193928965, 2987109284, 2412598821⟩ 47 = ⟨2412598821, 1822674658, 2193928965, 2987109284⟩ := by decide
  have r48 : MD5.step wordsJsmith ⟨2412598821, 1822674658, 2193928965, 2987109284⟩ 48 = ⟨2987109284, 2457486169, 1822674658, 2193928965⟩ := by decide
  have r49 : MD5.step wordsJsmith ⟨2987109284, 2457486169, 1822674658, 2193928965⟩ 49 = ⟨2193928965, 3475740029, 2457486169, 1822674658⟩ := by decide
  have r50 : MD5.step wordsJsmith ⟨2193928965, 3475740029, 2457486169, 1822674658⟩ 50 = ⟨1822674658, 900453164, 3475740029, 2457486169⟩ := by decide
  have r51 : MD5.step wordsJsmith ⟨1822674658, 900453164, 3475740029, 2457486169⟩ 51 = ⟨2457486169, 1936673447, 900453164, 3475740029⟩ := by decide
  have r52 : MD5.step wordsJsmith ⟨2457486169, 1936673447, 900453164, 3475740029⟩ 52 = ⟨3475740029, 4261737590, 1936673447, 900453164⟩ := by decide
  have r53 : MD5.step wordsJsmith ⟨3475740029, 4261737590, 1936673447, 900453164⟩ 53 = ⟨900453164, 3462820899, 4261737590, 1936673447⟩ := by decide
  have r54 : MD5.step wordsJsmith ⟨900453164, 3462820899, 4261737590, 1936673447⟩ 54 = ⟨1936673447, 2999035753, 3462820899, 4261737590⟩ := by decide
  have r55 : MD5.step wordsJsmith ⟨1936673447, 2999035753, 3462820899, 4261737590⟩ 55 = ⟨4261737590, 1234209190, 2999035753, 3462820899⟩ := by decide
  have r56 : MD5.step wordsJsmith ⟨4261737590, 1234209190, 2999035753, 3462820899⟩ 56 = ⟨3462820899, 2331533492, 1234209190, 2999035753⟩ := by decide
  have r57 : MD5.step wordsJsmith ⟨3462820899, 2331533492, 1234209190, 2999035753⟩ 57 = ⟨2999035753, 2485693952, 2331533492, 1234209190⟩ := by decide
  have r58 : MD5.step wordsJsmith ⟨2999035753, 2485693952, 2331533492, 1234209190⟩ 58 = ⟨1234209190, 3638425389, 2485693952, 2331533492⟩ := by decide
  have r59 : MD5.step wordsJsmith ⟨1234209190, 3638425389, 2485693952, 2331533492⟩ 59 = ⟨2331533492, 1872636202, 3638425389, 2485693952⟩ := by decide
  have r60 : MD5.step wordsJsmith ⟨2331533492, 1872636202, 3638425389, 2485693952⟩ 60 = ⟨2485693952, 3275336504, 1872636202, 3638425389⟩ := by decide
  have r61 : MD5.step wordsJsmith ⟨2485693952, 3275336504, 1872636202, 3638425389⟩ 61 = ⟨3638425389, 3888497312, 3275336504, 1872636202⟩ := by decide
  have r62 : MD5.step wordsJsmith ⟨3638425389, 3888497312, 3275336504, 1872636202⟩ 62 = ⟨1872636202, 195059433, 3888497312, 3275336504⟩ := by decide
  have r63 : MD5.step wordsJsmith ⟨1872636202, 195059433, 3888497312, 3275336504⟩ 63 = ⟨3275336504, 753321980, 195059433, 3888497312⟩ := by decide
  have hrange : List.range 64 = [0, 1, 2, 3, 4, 5, 6, 7, 8, 9, 10, 11, 12, 13, 14, 15, 16, 17, 18, 19, 20, 21, 22, 23, 24, 25, 26, 27, 28, 29, 30, 31, 32, 33, 34, 35, 36, 37, 38, 39, 40, 41, 42, 43, 44, 45, 46, 47, 48, 49, 50, 51, 52, 53, 54, 55, 56, 57, 58, 59, 60, 61, 62, 63] := by decide
  have hfold : List.foldl (MD5.step wordsJsmith) MD5.init (List.range 64) = ⟨3275336504, 753321980, 195059433, 3888497312⟩ := by
    rw [hrange]
    simp only [List.foldl_cons, List.foldl_nil, r0, r1, r2, r3, r4, r5, r6, r7, r8, r9, r10, r11, r12, r13, r14, r15, r16, r17, r18, r19, r20, r21, r22, r23, r24, r25, r26, r27, r28, r29, r30, r31, r32, r33, r34, r35, r36, r37, r38, r39, r40, r41, r42, r43, r44, r45, r46, r47, r48, r49, r50, r51, r52, r53, r54, r55, r56, r57, r58, r59, r60, r61, r62, r63]
  have hblk : MD5.processBlock MD5.init wordsJsmith = ⟨712953401, 481588101, 2757442535, 4160231190⟩ := by
    simp only [MD5.processBlock, hfold]
    decide
  unfold userHash MD5.md5words
  rw [hpad]
  simp only [List.foldl_cons, List.foldl_nil]
  rw [hW, hblk]
  decide

/-- `int(hashlib.md5(b"bob").hexdigest()[:8], 16)` evaluated. -/
theorem userHash_bob : userHash "bob" = 2677887420 := by
  have hpad : MD5.chunks (MD5.pad (MD5.encode "bob")) = [blockBob] := by decide
  have hW : MD5.toWords blockBob = wordsBob := by decide
  have r0 : MD5.step wordsBob MD5.init 0 = ⟨271733878, 3596064820, 4023233417, 2562383102⟩ := by decide
  have r1 : MD5.step wordsBob ⟨271733878, 3596064820, 4023233417, 2562383102⟩ 1 = ⟨2562383102, 1407255730, 3596064820, 4023233417⟩ := by decide
  have r2 : MD5.step wordsBob ⟨2562383102, 1407255730, 3596064820, 4023233417⟩ 2 = ⟨4023233417, 1174829827, 1407255730, 3596064820⟩ := by decide
  have r3 : MD5.step wordsBob ⟨4023233417, 1174829827, 1407255730, 3596064820⟩ 3 = ⟨3596064820, 4050088513, 1174829827, 1407255730⟩ := by decide
  have r4 : MD5.step wordsBob ⟨3596064820, 4050088513, 1174829827, 1407255730⟩ 4 = ⟨1407255730, 511098184, 4050088513, 1174829827⟩ := by decide
  have r5 : MD5.step wordsBob ⟨1407255730, 511098184, 4050088513, 1174829827⟩ 5 = ⟨1174829827, 306756612, 511098184, 4050088513⟩ := by decide
  have r6 : MD5.step wordsBob ⟨1174829827, 306756612, 511098184, 4050088513⟩ 6 = ⟨4050088513, 2432204609, 306756612, 511098184⟩ := by decide
  have r7 : MD5.step wordsBob ⟨4050088513, 2432204609, 306756612, 511098184⟩ 7 = ⟨511098184, 1669054065, 2432204609, 306756612⟩ := by decide
  have r8 : MD5.step wordsBob ⟨511098184, 1669054065, 2432204609, 306756612⟩ 8 = ⟨306756612, 2605052221, 1669054065, 2432204609⟩ := by decide
  have r9 : MD5.step wordsBob ⟨306756612, 2605052221, 1669054065, 2432204609⟩ 9 = ⟨2432204609, 308820821, 2605052221, 1669054065⟩ := by decide
  have r10 : MD5.step wordsBob ⟨2432204609, 308820821, 2605052221, 1669054065⟩ 10 = ⟨1669054065, 850805740, 308820821, 2605052221⟩ := by decide
  have r11 : MD5.step wordsBob ⟨1669054065, 850805740, 308820821, 2605052221⟩ 11 = ⟨2605052221, 2480427646, 850805740, 308820821⟩ := by decide
  have r12 : MD5.step wordsBob ⟨2605052221, 2480427646, 850805740, 308820821⟩ 12 = ⟨308820821, 1460615306, 2480427646, 850805740⟩ := by decide
  have r13 : MD5.step wordsBob ⟨308820821, 1460615306, 2480427646, 850805740⟩ 13 = ⟨850805740, 3876887749, 1460615306, 2480427646⟩ := by decide
  have r14 : MD5.step wordsBob ⟨850805740, 3876887749, 1460615306, 2480427646⟩ 14 = ⟨2480427646, 2880241340, 3876887749, 1460615306⟩ := by decide
  have r15 : MD5.step wordsBob ⟨2480427646, 2880241340, 3876887749, 1460615306⟩ 15 = ⟨1460615306, 1965171641, 2880241340, 3876887749⟩ := by decide
  have r16 : MD5.step wordsBob ⟨1460615306, 1965171641, 2880241340, 3876887749⟩ 16 = ⟨3876887749, 3487185008, 1965171641, 2880241340⟩ := by decide
  have r17 : MD5.step wordsBob ⟨3876887749, 3487185008, 1965171641, 2880241340⟩ 17 = ⟨2880241340, 2397873533, 3487185008, 1965171641⟩ := by decide
  have r18 : MD5.step wordsBob ⟨2880241340, 2397873533, 3487185008, 1965171641⟩ 18 = ⟨1965171641, 1938701757, 2397873533, 3487185008⟩ := by decide
  have r19 : MD5.step wordsBob ⟨1965171641, 1938701757, 2397873533, 3487185008⟩ 19 = ⟨3487185008, 4088425566, 1938701757, 2397873533⟩ := by decide
  have r20 : MD5.step wordsBob ⟨3487185008, 4088425566, 1938701757, 2397873533⟩ 20 = ⟨2397873533, 690037137, 4088425566, 1938701757⟩ := by decide
  have r21 : MD5.step wordsBob ⟨2397873533, 690037137, 4088425566, 1938701757⟩ 21 = ⟨1938701757, 3948439541, 690037137, 4088425566⟩ := by decide
  have r22 : MD5.step wordsBob ⟨1938701757, 3948439541, 690037137, 4088425566⟩ 22 = ⟨4088425566, 1306342853, 3948439541, 690037137⟩ := by decide
  have r23 : MD5.step wordsBob ⟨4088425566, 1306342853, 3948439541, 690037137⟩ 23 = ⟨690037137, 1318560674, 1306342853, 3948439541⟩ := by decide
  have r24 : MD5.step wordsBob ⟨690037137, 1318560674, 1306342853, 3948439541⟩ 24 = ⟨3948439541, 2174486165, 1318560674, 1306342853⟩ := by decide
  have r25 : MD5.step wordsBob ⟨3948439541, 2174486165, 1318560674, 1306342853⟩ 25 = ⟨1306342853, 3716750329, 2174486165, 1318560674⟩ := by decide
  have r26 : MD5.step wordsBob ⟨1306342853, 3716750329, 2174486165, 1318560674⟩ 26 = ⟨1318560674, 2957598727, 3716750329, 2174486165⟩ := by decide
  have r27 : MD5.step wordsBob ⟨1318560674, 2957598727, 3716750329, 2174486165⟩ 27 = ⟨2174486165, 3490734004, 2957598727, 3716750329⟩ := by decide
  have r28 : MD5.step wordsBob ⟨2174486165, 3490734004, 2957598727, 3716750329⟩ 28 = ⟨3716750329, 1209911735, 3490734004, 2957598727⟩ := by decide
  have r29 : MD5.step wordsBob ⟨3716750329, 1209911735, 3490734004, 2957598727⟩ 29 = ⟨2957598727, 1818040812, 1209911735, 3490734004⟩ := by decide
  have r30 : MD5.step wordsBob ⟨2957598727, 1818040812, 1209911735, 3490734004⟩ 30 = ⟨3490734004, 3950965217, 1818040812, 1209911735⟩ := by decide
  have r31 : MD5.step wordsBob ⟨3490734004, 3950965217, 1818040812, 1209911735⟩ 31 = ⟨1209911735, 3455814488, 3950965217, 1818040812⟩ := by decide
  have r32 : MD5.step wordsBob ⟨1209911735, 3455814488, 3950965217, 1818040812⟩ 32 = ⟨1818040812, 4244762689, 3455814488, 3950965217⟩ := by decide
  have r33 : MD5.step wordsBob ⟨1818040812, 4244762689, 3455814488, 3950965217⟩ 33 = ⟨3950965217, 2581405371, 4244762689, 3455814488⟩ := by decide
  have r34 : MD5.step wordsBob ⟨3950965217, 2581405371, 4244762689, 3455814488⟩ 34 = ⟨3455814488, 1384259838, 2581405371, 4244762689⟩ := by decide
  have r35 : MD5.step wordsBob ⟨3455814488, 1384259838, 2581405371, 4244762689⟩ 35 = ⟨4244762689, 310591686, 1384259838, 2581405371⟩ := by decide
  have r36 : MD5.step wordsBob ⟨4244762689, 310591686, 1384259838, 2581405371⟩ 36 = ⟨2581405371, 3428372813, 310591686, 1384259838⟩ := by decide
  have r37 : MD5.step wordsBob ⟨2581405371, 3428372813, 310591686, 1384259838⟩ 37 = ⟨1384259838, 2035784925, 3428372813, 310591686⟩ := by decide
  have r38 : MD5.step wordsBob ⟨1384259838, 2035784925, 3428372813, 310591686⟩ 38 = ⟨310591686, 4077686182, 2035784925, 3428372813⟩ := by decide
  have r39 : MD5.step wordsBob ⟨310591686, 4077686182, 2035784925, 3428372813⟩ 39 = ⟨3428372813, 2836934916, 4077686182, 2035784925⟩ := by decide
  have r40 : MD5.step wordsBob ⟨3428372813, 2836934916, 4077686182, 2035784925⟩ 40 = ⟨2035784925, 747584037, 2836934916, 4077686182⟩ := by decide
  have r41 : MD5.step wordsBob ⟨2035784925, 747584037, 2836934916, 4077686182⟩ 41 = ⟨4077686182, 3798285564, 747584037, 2836934916⟩ := by decide
  have r42 : MD5.step wordsBob ⟨4077686182, 3798285564, 747584037, 2836934916⟩ 42 = ⟨2836934916, 3631049961, 3798285564, 747584037⟩ := by decide
  have r43 : MD5.step wordsBob ⟨2836934916, 3631049961, 3798285564, 747584037⟩ 43 = ⟨747584037, 4115628229, 3631049961, 3798285564⟩ := by decide
  have r44 : MD5.step wordsBob ⟨747584037, 4115628229, 3631049961, 3798285564⟩ 44 = ⟨3798285564, 1343042482, 4115628229, 3631049961⟩ := by decide
  have r45 : MD5.step wordsBob ⟨3798285564, 1343042482, 4115628229, 3631049961⟩ 45 = ⟨3631049961, 3586207205, 1343042482, 4115628229⟩ := by decide
  have r46 : MD5.step wordsBob ⟨3631049961, 3586207205, 1343042482, 4115628229⟩ 46 = ⟨4115628229, 1580504696, 3586207205, 1343042482⟩ := by decide
  have r47 : MD5.step wordsBob ⟨4115628229, 1580504696, 3586207205, 1343042482⟩ 47 = ⟨1343042482, 184520871, 1580504696, 3586207205⟩ := by decide
  have r48 : MD5.step wordsBob ⟨1343042482, 184520871, 1580504696, 3586207205⟩ 48 = ⟨3586207205, 1677858933, 184520871, 1580504696⟩ := by decide
  have r49 : MD5.step wordsBob ⟨3586207205, 1677858933, 184520871, 1580504696⟩ 49 = ⟨1580504696, 3898427541, 1677858933, 184520871⟩ := by decide
  have r50 : MD5.step wordsBob ⟨1580504696, 3898427541, 1677858933, 184520871⟩ 50 = ⟨184520871, 21830185, 3898427541, 1677858933⟩ := by decide
  have r51 : MD5.step wordsBob ⟨184520871, 21830185, 3898427541, 1677858933⟩ 51 = ⟨1677858933, 85754022, 21830185, 3898427541⟩ := by decide
  have r52 : MD5.step wordsBob ⟨1677858933, 85754022, 21830185, 3898427541⟩ 52 = ⟨3898427541, 426016926, 85754022, 21830185⟩ := by decide
  have r53 : MD5.step wordsBob ⟨3898427541, 426016926, 85754022, 21830185⟩ 53 = ⟨21830185, 1800339047, 426016926, 85754022⟩ := by decide
  have r54 : MD5.step wordsBob ⟨21830185, 1800339047, 426016926, 85754022⟩ 54 = ⟨85754022, 2995974219, 1800339047, 426016926⟩ := by decide
  have r55 : MD5.step wordsBob ⟨85754022, 2995974219, 1800339047, 426016926⟩ 55 = ⟨426016926, 2734161670, 2995974219, 1800339047⟩ := by decide
  have r56 : MD5.step wordsBob ⟨426016926, 2734161670, 2995974219, 1800339047⟩ 56 = ⟨1800339047, 4286295977, 2734161670, 2995974219⟩ := by decide
  have r57 : MD5.step wordsBob ⟨1800339047, 4286295977, 2734161670, 2995974219⟩ 57 = ⟨2995974219, 273922757, 4286295977, 2734161670⟩ := by decide
  have r58 : MD5.step wordsBob ⟨2995974219, 273922757, 4286295977, 2734161670⟩ 58 = ⟨2734161670, 883799711, 273922757, 4286295977⟩ := by decide
  have r59 : MD5.step wordsBob ⟨2734161670, 883799711, 273922757, 4286295977⟩ 59 = ⟨4286295977, 3436213866, 883799711, 273922757⟩ := by decide
  have r60 : MD5.step wordsBob ⟨4286295977, 3436213866, 883799711, 273922757⟩ 60 = ⟨273922757, 1426881182, 3436213866, 883799711⟩ := by decide
  have r61 : MD5.step wordsBob ⟨273922757, 1426881182, 3436213866, 883799711⟩ 61 = ⟨883799711, 3354834466, 1426881182, 3436213866⟩ := by decide
  have r62 : MD5.step wordsBob ⟨883799711, 3354834466, 1426881182, 3436213866⟩ 62 = ⟨3436213866, 1865955166, 3354834466, 1426881182⟩ := by decide
  have r63 : MD5.step wordsBob ⟨3436213866, 1865955166, 3354834466, 1426881182⟩ 63 = ⟨1426881182, 3662955495, 1865955166, 3354834466⟩ := by decide
  have hrange : List.range 64 = [0, 1, 2, 3, 4, 5, 6, 7, 8, 9, 10, 11, 12, 13, 14, 15, 16, 17, 18, 19, 20, 21, 22, 23, 24, 25, 26, 27, 28, 29, 30, 31, 32, 33, 34, 35, 36, 37, 38, 39, 40, 41, 42, 43, 44, 45, 46, 47, 48, 49, 50, 51, 52, 53, 54, 55, 56, 57, 58, 59, 60, 61, 62, 63] := by decide
  have hfold : List.foldl (MD5.step wordsBob) MD5.init (List.range 64) = ⟨1426881182, 3662955495, 1865955166, 3354834466⟩ := by
    rw [hrange]
    simp only [List.foldl_cons, List.foldl_nil, r0, r1, r2, r3, r4, r5, r6, r7, r8, r9, r10, r11, r12, r13, r14, r15, r16, r17, r18, r19, r20, r21, r22, r23, r24, r25, r26, r27, r28, r29, r30, r31, r32, r33, r34, r35, r36, r37, r38, r39, r40, r41, r42, r43, r44, r45, r46, r47, r48, r49, r50, r51, r52, r53, r54, r55, r56, r57, r58, r59, r60, r61, r62, r63]
  have hblk : MD5.processBlock MD5.init wordsBob = ⟨3159465375, 3391221616, 133370972, 3626568344⟩ := by
    simp only [MD5.processBlock, hfold]
    decide
  unfold userHash MD5.md5words
  rw [hpad]
  simp only [List.foldl_cons, List.foldl_nil]
  rw [hW, hblk]
  decide


theorem rat_floor_eq_floor (q : ℚ) : q.floor = ⌊q⌋ := rfl

theorem dashboardMetrics_mod (h : Nat) :
    dashboardMetrics h = dashboardMetrics (h % 30) := by
  unfold dashboardMetrics dashVariation
  rw [Nat.mod_mod_of_dvd h (dvd_refl 30)]

theorem dashboardMetrics_spec (k : Nat) (hk : k < 30) :
    ∀ m ∈ dashboardMetrics k,
      m.actual_value = ((m.annual_target * (0.75 + dashVariation k * 0.5)).floor : ℚ) ∧
      m.attainment_percent = m.actual_value / m.annual_target * 100 ∧
      m.annual_target ≠ 0 ∧
      74 ≤ m.attainment_percent ∧ m.attainment_percent ≤ 90 := by
  interval_cases k <;>
    norm_num [dashboardMetrics, base_metrics, dashVariation, pyInt, rat_floor_eq_floor]


/-- C10: the statement block at source lines 110-118 of
`_get_user_dashboard` violates Python's INDENT/DEDENT rules (the `return`
at line 118 re-indents to column 20 after `dashboard_data = {...}` dedented
to column 12), so the branch is not valid Python; the transcription of
`_get_team_dashboard`, by contrast, passes the same check. -/
theorem user_dashboard_block_invalid_python :
    indentOk [] true getUserDashboardLines = false ∧
    indentOk [] true getTeamDashboardLines = true := by
  constructor <;> decide

/-- C6: `GET /api/users` with an unreachable store (and likewise with a
reachable store holding no items) returns 200 with exactly the three
canonical sample users, in order `jsmith, mjohnson, rbrown`, each with the
full `User` shape. -/
theorem get_users_fallback_spec :
    (∀ ph : String → Int,
      lambda_handler ph unreachableStore (LEvent.dict (some "GET") (some "/api/users")) =
        _success_response (Body.users _generate_sample_users) corsHeaders) ∧
    (∀ ph : String → Int,
      lambda_handler ph emptyStore (LEvent.dict (some "GET") (some "/api/users")) =
        _success_response (Body.users _generate_sample_users) corsHeaders) ∧
    _generate_sample_users =
      [{ alias' := "jsmith", name := "John Smith",
         job_title := "Senior Solutions Architect", staff_level := "L6",
         supervisor := "manager1", region := "US East" },
       { alias' := "mjohnson", name := "Mary Johnson",
         job_title := "Principal Solutions Architect", staff_level := "L7",
         supervisor := "manager1", region := "US West" },
       { alias' := "rbrown", name := "Robert Brown",
         job_title := "Solutions Architect", staff_level := "L5",
         supervisor := "manager2", region := "US Central" }] :=
  ⟨fun _ => rfl, fun _ => rfl, rfl⟩

/-- C9: `_calculate_team_summary` is total, and for every input list
(members may lack `overall_attainment`, which is read as 0)
`members_on_track + members_at_risk = total_members = length`. -/
theorem team_summary_invariant :
    ∀ L : List TeamRec,
      (_calculate_team_summary L).members_on_track +
          (_calculate_team_summary L).members_at_risk =
        (_calculate_team_summary L).total_members ∧
      (_calculate_team_summary L).total_members = L.length := by
  intro L
  unfold _calculate_team_summary
  by_cases hL : L.isEmpty
  · rw [if_pos hL]
    rw [List.isEmpty_iff] at hL
    simp [hL]
  · rw [if_neg hL]
    have hle : L.countP (fun m => decide (80 ≤ m.overall_attainment.getD 0)) ≤ L.length :=
      List.countP_le_length _
    constructor
    · exact Nat.add_sub_cancel' hle
    · rfl


/-- C7: `_get_user_info` returns the matching sample user's data for the
three sample aliases, and the first sample user (`jsmith`) for every other
alias, including the empty string — never an error or not-found signal. -/
theorem user_info_lookup_spec :
    _get_user_info "jsmith" =
      ⟨"jsmith", "John Smith", "Senior Solutions Architect", "L6", "manager1"⟩ ∧
    _get_user_info "mjohnson" =
      ⟨"mjohnson", "Mary Johnson", "Principal Solutions Architect", "L7", "manager1"⟩ ∧
    _get_user_info "rbrown" =
      ⟨"rbrown", "Robert Brown", "Solutions Architect", "L5", "manager2"⟩ ∧
    _get_user_info "" =
      ⟨"jsmith", "John Smith", "Senior Solutions Architect", "L6", "manager1"⟩ ∧
    (∀ a : String, a ∉ (["jsmith", "mjohnson", "rbrown"] : List String) →
      _get_user_info a =
        ⟨"jsmith", "John Smith", "Senior Solutions Architect", "L6", "manager1"⟩) := by
  refine ⟨by decide, by decide, by decide, by decide, ?_⟩
  intro a ha
  simp only [List.mem_cons, List.not_mem_nil, or_false, not_or] at ha
  obtain ⟨h1, h2, h3⟩ := ha
  unfold _get_user_info _generate_sample_users
  have e1 : (("jsmith" : String) == a) = false := by
    simp [Ne.symm h1]
  have e2 : (("mjohnson" : String) == a) = false := by
    simp [Ne.symm h2]
  have e3 : (("rbrown" : String) == a) = false := by
    simp [Ne.symm h3]
  simp [List.find?, e1, e2, e3]

/-- C7 witness at the unmatched alias `"zzz"`. -/
theorem user_info_lookup_spec_witness :
    _get_user_info "zzz" =
      ⟨"jsmith", "John Smith", "Senior Solutions Architect", "L6", "manager1"⟩ :=
  user_info_lookup_spec.2.2.2.2 "zzz" (by decide)


/-- C4: the team aggregator returns all-zero summary for an empty list;
for a non-empty list it returns the length, the mean of the members'
`overall_attainment` rounded to one decimal (Python `round`), the count of
members with attainment at least 80, and the complement count. -/
theorem calculate_team_summary_spec :
    _calculate_team_summary [] = ⟨0, 0, 0, 0⟩ ∧
    (∀ L : List TeamRec, L ≠ [] →
      _calculate_team_summary L =
        ⟨L.length,
         round1 ((L.map (fun m => m.overall_attainment.getD 0)).sum / (L.length : ℚ)),
         L.countP (fun m => 80 ≤ m.overall_attainment.getD 0),
         L.length - L.countP (fun m => 80 ≤ m.overall_attainment.getD 0)⟩) := by
  constructor
  · rfl
  · intro L hL
    unfold _calculate_team_summary
    rw [if_neg]
    simp [List.isEmpty_iff, hL]

/-- C4 witness on the concrete singleton roster `[{overall_attainment: 90}]`
(mean 90, rounded 90, one member on track, none at risk). -/
theorem calculate_team_summary_spec_witness :
    _calculate_team_summary [{ overall_attainment := some 90 }] = ⟨1, 90, 1, 0⟩ := by
  rw [calculate_team_summary_spec.2 [{ overall_attainment := some 90 }] (by decide)]
  with_unfolding_all decide


/-- C5: for every `pyHash` (Python's process-seeded builtin `hash`) and
every manager alias, the sample-team fallback returns exactly the first two
sample users reshaped as team members with `metrics_count = 3`,
`on_track_metrics = 2`, `at_risk_metrics = 1` and
`overall_attainment = 85 + (hash(alias) % 20) ∈ [85, 104]`, independent of
the manager alias; consequently `GET /api/team-dashboard/manager1` with an
unreachable store returns 200 with `team_summary.total_members = 2`. -/
theorem sample_team_spec :
    (∀ (ph : String → Int) (mA : String),
      _generate_sample_team ph mA =
        [{ user_alias := some "jsmith", name := some "John Smith",
           job_title := some "Senior Solutions Architect",
           overall_attainment := some (85 + ((ph "jsmith" % 20 : Int) : ℚ)),
           metrics_count := some 3, on_track_metrics := some 2,
           at_risk_metrics := some 1 },
         { user_alias := some "mjohnson", name := some "Mary Johnson",
           job_title := some "Principal Solutions Architect",
           overall_attainment := some (85 + ((ph "mjohnson" % 20 : Int) : ℚ)),
           metrics_count := some 3, on_track_metrics := some 2,
           at_risk_metrics := some 1 }]) ∧
    (∀ (ph : String → Int) (mA : String), ∀ r ∈ _generate_sample_team ph mA,
      85 ≤ r.overall_attainment.getD 0 ∧ r.overall_attainment.getD 0 ≤ 104) ∧
    (∀ ph : String → Int,
      (lambda_handler ph unreachableStore
          (LEvent.dict (some "GET") (some "/api/team-dashboard/manager1"))).statusCode
        = 200 ∧
      lambda_handler ph unreachableStore
          (LEvent.dict (some "GET") (some "/api/team-dashboard/manager1")) =
        _success_response
          (Body.team "manager1"
            (_calculate_team_summary (_generate_sample_team ph "manager1"))
            (_generate_sample_team ph "manager1")) corsHeaders ∧
      (_calculate_team_summary (_generate_sample_team ph "manager1")).total_members = 2) := by
  have h1 : ∀ (ph : String → Int) (mA : String),
      _generate_sample_team ph mA =
        [{ user_alias := some "jsmith", name := some "John Smith",
           job_title := some "Senior Solutions Architect",
           overall_attainment := some (85 + ((ph "jsmith" % 20 : Int) : ℚ)),
           metrics_count := some 3, on_track_metrics := some 2,
           at_risk_metrics := some 1 },
         { user_alias := some "mjohnson", name := some "Mary Johnson",
           job_title := some "Principal Solutions Architect",
           overall_attainment := some (85 + ((ph "mjohnson" % 20 : Int) : ℚ)),
           metrics_count := some 3, on_track_metrics := some 2,
           at_risk_metrics := some 1 }] := fun _ _ => rfl
  have hbound : ∀ x : Int, (85 : ℚ) ≤ 85 + ((x % 20 : Int) : ℚ) ∧
      (85 : ℚ) + ((x % 20 : Int) : ℚ) ≤ 104 := by
    intro x
    have h0 : (0 : Int) ≤ x % 20 := by omega
    have h19 : x % 20 ≤ 19 := by omega
    constructor
    · have : (0 : ℚ) ≤ ((x % 20 : Int) : ℚ) := by exact_mod_cast h0
      linarith
    · have : ((x % 20 : Int) : ℚ) ≤ 19 := by exact_mod_cast h19
      linarith
  refine ⟨h1, ?_, ?_⟩
  · intro ph mA r hr
    rw [h1 ph mA] at hr
    simp only [List.mem_cons, List.not_mem_nil, or_false] at hr
    rcases hr with h | h <;> subst h <;> simpa using hbound _
  · intro ph
    exact ⟨rfl, rfl, rfl⟩

/-- C5 witness: with the constant-zero hash function the first returned
team member is `jsmith` with attainment 85, which lies in `[85, 104]`. -/
theorem sample_team_spec_witness :
    (85 : ℚ) ≤
      ({ user_alias := some "jsmith", name := some "John Smith",
         job_title := some "Senior Solutions Architect",
         overall_attainment := some 85, metrics_count := some 3,
         on_track_metrics := some 2,
         at_risk_metrics := some 1 } : TeamRec).overall_attainment.getD 0 :=
  (sample_team_spec.2.1 (fun _ => 0) "manager1" _ (by with_unfolding_all decide)).1


/-- Every response to a dict-shaped event has the CORS headers (helper for
the `_get_users` handler). -/
theorem get_users_headers (store : Store) (h : List (String × String)) :
    (_get_users store h).headers = h := rfl

/-- Headers of `_get_user_dashboard` are the given headers. -/
theorem get_user_dashboard_headers (store : Store) (a : String)
    (h : List (String × String)) :
    (_get_user_dashboard store a h).headers = h := by
  unfold _get_user_dashboard
  rcases hq : store.queryMetrics a with _ | items
  · rfl
  · dsimp only
    split <;> rfl

/-- Headers of `_get_team_dashboard` are the given headers. -/
theorem get_team_dashboard_headers (ph : String → Int) (store : Store)
    (a : String) (h : List (String × String)) :
    (_get_team_dashboard ph store a h).headers = h := rfl


/-- C3 (amended): every response the router produces for a dict-shaped
event — success, 404, or handler-level 500 — carries the full CORS header
set; but a fault raised before the headers are constructed (a non-dict
event) yields a 500 whose headers are the empty dict, not the CORS set. -/
theorem router_cors_headers :
    (∀ (ph : String → Int) (store : Store) (m p : Option String),
      (lambda_handler ph store (LEvent.dict m p)).headers = corsHeaders) ∧
    (∀ (ph : String → Int) (store : Store),
      lambda_handler ph store LEvent.nonDict =
        ⟨500, [], Body.error "Internal server error"⟩) := by
  constructor
  · intro ph store m p
    unfold lambda_handler
    dsimp only
    repeat' split
    all_goals
      first
        | rfl
        | exact get_users_headers _ _
        | exact get_user_dashboard_headers _ _ _
        | exact get_team_dashboard_headers _ _ _ _
  · intro ph store
    rfl

/-- C3 counterexample: invoking the handler with a non-dict event (Python
`None`) faults at `event.get` before the headers are built; the resulting
500 carries an empty header dict, with no CORS headers at all. -/
theorem fault_before_headers_no_cors :
    (lambda_handler (fun _ => 0) unreachableStore LEvent.nonDict).statusCode = 500 ∧
    (lambda_handler (fun _ => 0) unreachableStore LEvent.nonDict).headers = [] ∧
    ("Access-Control-Allow-Origin", "*") ∉
      (lambda_handler (fun _ => 0) unreachableStore LEvent.nonDict).headers :=
  ⟨rfl, rfl, by decide⟩

/-- C8: every (method, path) pair with method ≠ OPTIONS matching none of
the three GET routes gets a 404 with body `{"error": "Endpoint not found"}`
(and CORS headers), for any store state. -/
theorem router_unmatched_404 :
    ∀ (ph : String → Int) (store : Store) (m p : String),
      m ≠ "OPTIONS" →
      ¬(p = "/api/users" ∧ m = "GET") →
      ¬(startswith p "/api/dashboard/" = true ∧ m = "GET") →
      ¬(startswith p "/api/team-dashboard/" = true ∧ m = "GET") →
      lambda_handler ph store (LEvent.dict (some m) (some p)) =
        ⟨404, corsHeaders, Body.error "Endpoint not found"⟩ := by
  intro ph store m p h0 h1 h2 h3
  unfold lambda_handler
  dsimp only [Option.getD]
  have hb0 : ¬ ((m == "OPTIONS") = true) := by
    simpa [beq_iff_eq] using h0
  have hb1 : ¬ ((p == "/api/users" && m == "GET") = true) := by
    simpa [Bool.and_eq_true, beq_iff_eq] using h1
  have hb2 : ¬ ((startswith p "/api/dashboard/" && m == "GET") = true) := by
    simpa [Bool.and_eq_true, beq_iff_eq] using h2
  have hb3 : ¬ ((startswith p "/api/team-dashboard/" && m == "GET") = true) := by
    simpa [Bool.and_eq_true, beq_iff_eq] using h3
  rw [if_neg hb0, if_neg hb1, if_neg hb2, if_neg hb3]
  rfl

/-- C8 witness: `GET /api/unknown` is unmatched and yields the 404. -/
theorem router_unmatched_404_witness :
    lambda_handler (fun _ => 0) unreachableStore
        (LEvent.dict (some "GET") (some "/api/unknown")) =
      ⟨404, corsHeaders, Body.error "Endpoint not found"⟩ :=
  router_unmatched_404 (fun _ => 0) unreachableStore "GET" "/api/unknown"
    (by decide) (by decide) (by decide) (by decide)


/-- `dashVariation` depends on the hash only through `hash % 30`. -/
theorem dashVariation_mod (h : Nat) :
    dashVariation (h % 30) = dashVariation h := by
  unfold dashVariation
  rw [Nat.mod_mod_of_dvd h (dvd_refl 30)]

/-- C1 (amended): for every alias the fallback dashboard builds the three
fixed metric templates with
`actual = int(target * (0.75 + variation * 0.5))` and
`attainment = actual / target * 100`; every attainment lies between **74**
and 90 inclusive (the floor pushes `customer_engagements` to 74 and
`win_rate` to 520/7 ≈ 74.3 when `hash(alias) % 30 < 2`, below the claimed
75); `GET /api/dashboard/jsmith` with an unreachable store still returns
200, and for `jsmith` all three attainments do lie in `[75, 90]`. -/
theorem user_dashboard_attainment_spec :
    (∀ a : String, ∀ m ∈ (_generate_user_dashboard a).metrics,
      m.actual_value =
        ((m.annual_target * (0.75 + dashVariation (userHash a) * 0.5)).floor : ℚ) ∧
      m.attainment_percent = m.actual_value / m.annual_target * 100 ∧
      74 ≤ m.attainment_percent ∧ m.attainment_percent ≤ 90) ∧
    (∀ a : String,
      (_generate_user_dashboard a).metrics.map
          (fun m => (m.metric_name, m.annual_target)) =
        [("revenue_target", (1000000 : ℚ)), ("customer_engagements", 50),
         ("win_rate", 70)]) ∧
    (∀ ph : String → Int,
      (lambda_handler ph unreachableStore
          (LEvent.dict (some "GET") (some "/api/dashboard/jsmith"))).statusCode = 200 ∧
      lambda_handler ph unreachableStore
          (LEvent.dict (some "GET") (some "/api/dashboard/jsmith")) =
        _success_response (Body.dashboard (_generate_user_dashboard "jsmith"))
          corsHeaders) ∧
    (∀ m ∈ (_generate_user_dashboard "jsmith").metrics,
      75 ≤ m.attainment_percent ∧ m.attainment_percent ≤ 90) := by
  refine ⟨?_, fun a => rfl, fun ph => ⟨rfl, rfl⟩, ?_⟩
  · intro a m hm
    have hmet : (_generate_user_dashboard a).metrics = dashboardMetrics (userHash a) := rfl
    rw [hmet, dashboardMetrics_mod] at hm
    have h := dashboardMetrics_spec (userHash a % 30)
      (Nat.mod_lt _ (by norm_num)) m hm
    rw [dashVariation_mod] at h
    exact ⟨h.1, h.2.1, h.2.2.2⟩
  · have hj : (_generate_user_dashboard "jsmith").metrics = dashboardMetrics 969834026 := by
      show dashboardMetrics (userHash "jsmith") = _
      rw [userHash_jsmith]
    rw [hj]
    with_unfolding_all decide

/-- C1 counterexample: for the alias `"bob"` (md5-derived hash 2677887420,
hash % 30 = 0) the generated `customer_engagements` metric has
`actual = int(50 * 0.75) = 37` and `attainment_percent = 74 < 75`, so not
every attainment lies in `[75, 90]`. -/
theorem user_dashboard_bob_attainment_below_75 :
    ¬ (∀ m ∈ (_generate_user_dashboard "bob").metrics,
        75 ≤ m.attainment_percent ∧ m.attainment_percent ≤ 90) := by
  have hb : (_generate_user_dashboard "bob").metrics = dashboardMetrics 2677887420 := by
    show dashboardMetrics (userHash "bob") = _
    rw [userHash_bob]
  rw [hb]
  with_unfolding_all decide

/-- C1 witness: the `customer_engagements` metric generated for `"bob"`
satisfies the (amended) lower bound 74. -/
theorem user_dashboard_attainment_spec_witness :
    (74 : ℚ) ≤
      (⟨"customer_engagements", "Customer Engagements", 50, "count", 37, 74⟩
          : Metric).attainment_percent :=
  (user_dashboard_attainment_spec.1 "bob" _ (by
      show _ ∈ (_generate_user_dashboard "bob").metrics
      have hb : (_generate_user_dashboard "bob").metrics =
          dashboardMetrics 2677887420 := by
        show dashboardMetrics (userHash "bob") = _
        rw [userHash_bob]
      rw [hb]
      with_unfolding_all decide)).2.2.1

/-- C2 (amended): metrics built by the fallback generator satisfy
`attainment_percent = actual_value / annual_target * 100` with a nonzero
target; metrics built by `_format_metric` instead carry `attainment_percent`
(and `actual_value`, `annual_target`) verbatim from the stored record, so
the identity holds for them only if the stored record already satisfies
it. -/
theorem metric_attainment_identity_spec :
    (∀ h : Nat, ∀ m ∈ dashboardMetrics h,
      m.annual_target ≠ 0 ∧
      m.attainment_percent = m.actual_value / m.annual_target * 100) ∧
    (∀ item : StoredItem,
      (_format_metric item).attainment_percent = item.attainment_percent.getD 0 ∧
      (_format_metric item).actual_value = item.actual_value.getD 0 ∧
      (_format_metric item).annual_target = item.annual_target.getD 0) := by
  constructor
  · intro h m hm
    rw [dashboardMetrics_mod] at hm
    have hs := dashboardMetrics_spec (h % 30) (Nat.mod_lt _ (by norm_num)) m hm
    exact ⟨hs.2.2.1, hs.2.1⟩
  · exact fun item => ⟨rfl, rfl, rfl⟩

/-- C2 counterexample: a stored record with `actual_value = 10`,
`annual_target = 100` but `attainment_percent = 55` is formatted with
`attainment_percent = 55 ≠ 10 = actual/target*100`: the formatter does not
recompute the identity. -/
theorem format_metric_attainment_not_recomputed :
    (_format_metric ⟨some "m", some "M", some 10, some 100, some 55, some "count"⟩).annual_target ≠ 0 ∧
    (_format_metric ⟨some "m", some "M", some 10, some 100, some 55, some "count"⟩).attainment_percent ≠
      (_format_metric ⟨some "m", some "M", some 10, some 100, some 55, some "count"⟩).actual_value /
        (_format_metric ⟨some "m", some "M", some 10, some 100, some 55, some "count"⟩).annual_target * 100 := by
  with_unfolding_all decide

/-- C2 witness: the engagements metric generated at reduced hash 0
satisfies the attainment identity (74 = 37 / 50 * 100). -/
theorem metric_attainment_identity_spec_witness :
    (⟨"customer_engagements", "Customer Engagements", 50, "count", 37, 74⟩
        : Metric).attainment_percent =
      (⟨"customer_engagements", "Customer Engagements", 50, "count", 37, 74⟩
          : Metric).actual_value /
        (⟨"customer_engagements", "Customer Engagements", 50, "count", 37, 74⟩
            : Metric).annual_target * 100 :=
  (metric_attainment_identity_spec.1 0 _ (by with_unfolding_all decide)).2

end Dashboard
